import Mathlib

/-
Shallow embedding of `src/uploader-bot.py` (a Telegram file-uploader bot).

The relational store (PostgreSQL tables `categories`, `files`, `channels`)
is modelled as lists of rows inside a `Store` record; the SQL UNIQUE and
FOREIGN KEY constraints of `init_db` are modelled as explicit membership
checks, and an insert that would violate a constraint raised by the driver
is modelled as `Except.error` (an uncaught exception) or, where the source
catches `UniqueViolationError`, as the source's own fallback value.

Network effects are modelled with oracles: `get_chat_member` outcomes are
a function from attempt index to `ChatMemberResult`, and per-file send
success in `send_category_files` is a function from iteration index to
`Bool`.  `asyncio.sleep` calls are recorded as data (delays in tenths of a
time unit, so `0.5` becomes `5` and `2` becomes `20`).

The in-memory session dicts `pending_uploads` and `pending_channels` are
modelled as association lists keyed by the Telegram user id.
-/

namespace UploaderBot

/-- Row of the `categories` table: `id TEXT PRIMARY KEY`, `name TEXT NOT NULL UNIQUE`,
`created_by BIGINT NOT NULL` (the timestamp column is irrelevant to the logic). -/
structure CategoryRow where
  id : String
  name : String
  created_by : Int
deriving DecidableEq

/-- Row of the `files` table: `category_id` references `categories(id)`,
`file_id TEXT NOT NULL UNIQUE`, plus name, size, type tag and caption. -/
structure FileRow where
  category_id : String
  file_id : String
  file_name : String
  file_size : Int
  file_type : String
  caption : String
deriving DecidableEq

/-- Row of the `channels` table: `channel_id TEXT NOT NULL UNIQUE`, display
name and invite link. -/
structure ChannelRow where
  channel_id : String
  channel_name : String
  invite_link : String
deriving DecidableEq

/-- Dict produced by `BotManager.extract_file_info`: the per-file payload
accumulated in an upload session before it is persisted. -/
structure FileInfo where
  file_id : String
  file_name : String
  file_size : Int
  file_type : String
  caption : String
deriving DecidableEq

/-- State of the three database tables. -/
structure Store where
  categories : List CategoryRow
  files : List FileRow
  channels : List ChannelRow
deriving DecidableEq

/-- Primary keys of the `categories` table. -/
def catIds (st : Store) : List String := st.categories.map (·.id)

/-- Names of the `categories` table (UNIQUE column). -/
def catNames (st : Store) : List String := st.categories.map (·.name)

/-- Provider file identifiers of the `files` table (UNIQUE column). -/
def fileIds (st : Store) : List String := st.files.map (·.file_id)

/-- Channel identifiers of the `channels` table (UNIQUE column). -/
def chanIds (st : Store) : List String := st.channels.map (·.channel_id)

/-- Models `Database.add_category`: the fresh id `str(uuid.uuid4())[:8]` is an
explicit argument (the source draws it nondeterministically); the INSERT has
no `except` clause, so a uniqueness violation (on the PRIMARY KEY id or the
UNIQUE name) is an uncaught error. -/
def add_category (freshId name : String) (created_by : Int) (st : Store) :
    Except Unit (Store × String) :=
  if freshId ∈ catIds st ∨ name ∈ catNames st then
    .error ()
  else
    .ok ({ st with categories := st.categories ++ [⟨freshId, name, created_by⟩] }, freshId)

/-- Models `Database.get_category`: `None` when no category row matches,
otherwise the category name together with its file rows in select order. -/
def get_category (cid : String) (st : Store) : Option (String × List FileRow) :=
  match st.categories.find? (fun c => c.id == cid) with
  | none => none
  | some c => some (c.name, st.files.filter (fun f => f.category_id == cid))

/-- Row built by the INSERT inside `Database.add_files` for one pending file. -/
def mkFileRow (cid : String) (f : FileInfo) : FileRow :=
  ⟨cid, f.file_id, f.file_name, f.file_size, f.file_type, f.caption⟩

/-- Loop body of `Database.add_files`: each INSERT is tried in order; a
duplicate `file_id` raises `UniqueViolationError`, which the source catches
and skips; a missing category raises a foreign-key error, which the source
does not catch, so it escapes as `Except.error`. -/
def add_filesAux (cid : String) : List FileInfo → Store → Nat → Except Unit (Store × Nat)
  | [], st, n => .ok (st, n)
  | f :: rest, st, n =>
    if cid ∈ catIds st then
      if f.file_id ∈ fileIds st then
        add_filesAux cid rest st n
      else
        add_filesAux cid rest { st with files := st.files ++ [mkFileRow cid f] } (n + 1)
    else
      .error ()

/-- Models `Database.add_files`: batch insert returning the count of rows
actually inserted, skipping duplicate file ids. -/
def add_files (cid : String) (fs : List FileInfo) (st : Store) : Except Unit (Store × Nat) :=
  add_filesAux cid fs st 0

/-- Models `Database.add_channel`: returns `False` (no mutation) on a
duplicate `channel_id`, `True` after inserting otherwise. -/
def add_channel (cid name link : String) (st : Store) : Store × Bool :=
  if cid ∈ chanIds st then
    (st, false)
  else
    ({ st with channels := st.channels ++ [⟨cid, name, link⟩] }, true)

/-- Lookup in a session dict keyed by user id (`pending_uploads` /
`pending_channels`). -/
def lookupA {α : Type} : List (Int × α) → Int → Option α
  | [], _ => none
  | (k', v) :: rest, k => if k' = k then some v else lookupA rest k

/-- Removal of a key from a session dict (`del d[user_id]` / `d.pop(user_id)`). -/
def removeA {α : Type} : List (Int × α) → Int → List (Int × α)
  | [], _ => []
  | (k', v) :: rest, k => if k' = k then removeA rest k else (k', v) :: removeA rest k

/-- Assignment `d[user_id] = v` on a session dict. -/
def setA {α : Type} (m : List (Int × α)) (k : Int) (v : α) : List (Int × α) :=
  (k, v) :: removeA m k

/-- Outcome of one `context.bot.get_chat_member` call: a status string, or a
raised transport exception. -/
inductive ChatMemberResult where
  | ok (status : String)
  | failure
deriving DecidableEq

/-- Status list `['member', 'administrator', 'creator']` from `is_user_member`. -/
def memberStatuses : List String := ["member", "administrator", "creator"]

/-- Whether one attempt's outcome counts as joined: a successful call whose
status is in `memberStatuses`; an exception never does. -/
def attemptJoined : ChatMemberResult → Bool
  | .ok s => memberStatuses.contains s
  | .failure => false

/-- Loop `for _ in range(3)` of `is_user_member`: `i` is the index of the next
attempt in the oracle `tr`, the fuel is the number of attempts left.  Returns
the result together with the list of `asyncio.sleep(2)` delays executed
(the sleep sits after the `try`/`except`, so it runs after every attempt
that did not return). -/
def is_user_memberAux (tr : Nat → ChatMemberResult) : Nat → Nat → Bool × List Nat
  | _, 0 => (false, [])
  | i, n + 1 =>
    if attemptJoined (tr i) then
      (true, [])
    else
      ((is_user_memberAux tr (i + 1) n).1, 2 :: (is_user_memberAux tr (i + 1) n).2)

/-- Models `is_user_member(context, channel_id, user_id)` for a fixed channel
and user: `tr` maps each attempt index to that attempt's transport outcome. -/
def is_user_member (tr : Nat → ChatMemberResult) : Bool × List Nat :=
  is_user_memberAux tr 0 3

/-- Transport oracle for membership checks: channel id, user id, attempt
index, outcome of that `get_chat_member` call. -/
def MemberOracle : Type := String → Int → Nat → ChatMemberResult

/-- Channels the loop in `handle_category` / `button_handler` accumulates in
`non_joined`: those for which `is_user_member` came back false. -/
def non_joinedChannels (channels : List ChannelRow) (tr : MemberOracle) (uid : Int) :
    List ChannelRow :=
  channels.filter (fun c => !(is_user_member (tr c.channel_id uid)).1)

/-- Observable outcome of the access gate for a category request. -/
inductive GateAction where
  | adminMenu (info : Option (String × Nat))
  | deliver
  | prompt (nonJoined : List ChannelRow) (recheckData : String)
deriving DecidableEq

/-- Models `handle_category`: admins get the management menu from
`admin_category_menu` (which is where category existence is checked, via
`get_category`); non-admins are gated on the current `channels` table and
the membership oracle, with the re-check button carrying
`"check_" + category_id`. -/
def handle_category (isAdmin : Bool) (uid : Int) (cid : String) (st : Store)
    (tr : MemberOracle) : GateAction :=
  if isAdmin then
    match get_category cid st with
    | none => .adminMenu none
    | some (name, files) => .adminMenu (some (name, files.length))
  else
    if st.channels.isEmpty then
      .deliver
    else
      let nj := non_joinedChannels st.channels tr uid
      if nj.isEmpty then .deliver else .prompt nj ("check_" ++ cid)

/-- Models the `check_` branch of `button_handler`: re-fetches the channel
list, recomputes `non_joined`, and either re-displays the prompt or delivers. -/
def button_check (uid : Int) (cid : String) (st : Store) (tr : MemberOracle) : GateAction :=
  let nj := non_joinedChannels st.channels tr uid
  if nj.isEmpty then .deliver else .prompt nj ("check_" ++ cid)

/-- Per-admin upload session value stored in `pending_uploads`. -/
structure UploadSession where
  category_id : String
  files : List FileInfo
deriving DecidableEq

/-- Reply of the `add_` branch of `button_handler`. -/
inductive ButtonAddReply where
  | denied
  | activated
deriving DecidableEq

/-- Models the `add_` branch of `button_handler`: after the admin check it
assigns a fresh session unconditionally — it never consults `get_category`. -/
def button_add (isAdmin : Bool) (cid : String) (pending : List (Int × UploadSession))
    (uid : Int) : ButtonAddReply × List (Int × UploadSession) :=
  if isAdmin then
    (.activated, setA pending uid ⟨cid, []⟩)
  else
    (.denied, pending)

/-- Reply of the `/upload` command handler. -/
inductive UploadCmdReply where
  | denied
  | askId
  | notFound
  | activated
deriving DecidableEq

/-- Models `upload_command`: admin check, argument check, `get_category`
existence check, then assignment of a fresh empty session. -/
def upload_command (isAdmin : Bool) (args : List String) (st : Store)
    (pending : List (Int × UploadSession)) (uid : Int) :
    UploadCmdReply × List (Int × UploadSession) :=
  if !isAdmin then
    (.denied, pending)
  else
    match args with
    | [] => (.askId, pending)
    | cid :: _ =>
      match get_category cid st with
      | none => (.notFound, pending)
      | some _ => (.activated, setA pending uid ⟨cid, []⟩)

/-- Reply of `handle_file`. -/
inductive HandleFileReply where
  | ignored
  | unsupported
  | received (count : Nat)
deriving DecidableEq

/-- Models `handle_file`: no-op without an active session; `extract_file_info`
returning `None` (modelled as the `Option.none` argument) is rejected as
unsupported; otherwise the file is appended to the session's list. -/
def handle_file (uid : Int) (finfo : Option FileInfo)
    (pending : List (Int × UploadSession)) : HandleFileReply × List (Int × UploadSession) :=
  match lookupA pending uid with
  | none => (.ignored, pending)
  | some up =>
    match finfo with
    | none => (.unsupported, pending)
    | some fi =>
      (.received (up.files.length + 1), setA pending uid ⟨up.category_id, up.files ++ [fi]⟩)

/-- Sequence of successful `handle_file` calls (one per sent file). -/
def runAddFiles (uid : Int) (fs : List FileInfo) (pending : List (Int × UploadSession)) :
    List (Int × UploadSession) :=
  fs.foldl (fun p fi => (handle_file uid (some fi) p).2) pending

/-- Observable outcome of `finish_upload`: `raised` stands for an exception
escaping the handler (the batch insert has no surrounding `try`). -/
inductive FinishOutcome where
  | noActive
  | noFiles
  | saved (n : Nat)
  | raised
deriving DecidableEq

/-- Models `finish_upload`: the session is popped before anything else, then
an empty file list short-circuits with its own message, otherwise
`Database.add_files` runs and its count is reported. -/
def finish_upload (uid : Int) (pending : List (Int × UploadSession)) (st : Store) :
    FinishOutcome × List (Int × UploadSession) × Store :=
  match lookupA pending uid with
  | none => (.noActive, pending, st)
  | some sess =>
    let pending' := removeA pending uid
    if sess.files.isEmpty then
      (.noFiles, pending', st)
    else
      match add_files sess.category_id sess.files st with
      | .ok (st', n) => (.saved n, pending', st')
      | .error _ => (.raised, pending', st)

/-- Observable outcome of the `/new_category` handler: `raised` stands for
an exception escaping the handler (there is no `try` around
`Database.add_category`). -/
inductive NewCatOutcome where
  | denied
  | askName
  | created (cid : String)
  | raised
deriving DecidableEq

/-- Models `new_category`: admin check, argument check, then
`add_category(' '.join(args), user_id)` with no exception handling. -/
def new_category (isAdmin : Bool) (args : List String) (freshId : String) (uid : Int)
    (st : Store) : NewCatOutcome × Store :=
  if !isAdmin then
    (.denied, st)
  else if args.isEmpty then
    (.askName, st)
  else
    match add_category freshId (String.intercalate " " args) uid st with
    | .ok (st', cid) => (.created cid, st')
    | .error _ => (.raised, st)

/-- Progress of a channel-registration session, mirroring which keys the
`pending_channels[user_id]` dict already holds. -/
inductive ChanState where
  | empty
  | haveId (cid : String)
  | haveIdName (cid name : String)
deriving DecidableEq

/-- Reply of `handle_channel_info`. -/
inductive WizardReply where
  | ended
  | gotId
  | gotName
  | added
  | addFailed
deriving DecidableEq

/-- Models Python `str.strip()` on the character sequence of a string. -/
def pyStrip (s : String) : String :=
  ⟨((s.data.dropWhile Char.isWhitespace).reverse.dropWhile Char.isWhitespace).reverse⟩

/-- Models `handle_channel_info`: the stripped text fills the first missing
field; on the third message `Database.add_channel` is called exactly once,
the session is deleted, and success or the duplicate failure is reported. -/
def handle_channel_info (text : String) (uid : Int)
    (pendingC : List (Int × ChanState)) (st : Store) :
    WizardReply × List (Int × ChanState) × Store :=
  let t := pyStrip text
  match lookupA pendingC uid with
  | none => (.ended, pendingC, st)
  | some .empty => (.gotId, setA pendingC uid (.haveId t), st)
  | some (.haveId cid) => (.gotName, setA pendingC uid (.haveIdName cid t), st)
  | some (.haveIdName cid name) =>
    let r := add_channel cid name t st
    let p' := removeA pendingC uid
    (if r.2 then .added else .addFailed, p', r.1)

/-- Send operations of the transport, the values of the dispatch dict in
`send_category_files`. -/
inductive SendOp where
  | document
  | photo
  | video
  | audio
deriving DecidableEq

/-- Models the dict lookup `{'document': ..., 'photo': ..., 'video': ...,
'audio': ...}.get(file['file_type'])`: `none` is a missing key. -/
def sendOpOf : String → Option SendOp
  | "document" => some .document
  | "photo" => some .photo
  | "video" => some .video
  | "audio" => some .audio
  | _ => none

/-- Observable events of the delivery loop: a successful send (with the
operation used and the caption actually passed), a logged send failure, and
a pacing sleep (delay in tenths of a time unit). -/
inductive SendEvent where
  | sent (op : SendOp) (file_id : String) (caption : String)
  | failLogged
  | paced (tenths : Nat)
deriving DecidableEq

/-- Pacing sleep `asyncio.sleep(0.5)` after each iteration's send attempt. -/
def perSendDelay : Nat := 5

/-- Sleep `asyncio.sleep(2)` in the per-file `except` branch. -/
def failureDelay : Nat := 20

/-- Per-file loop of `send_category_files`: `ok i` tells whether the send in
iteration `i` succeeds; a missing dispatch entry skips the send but still
sleeps; a raised send is logged and answered with the longer sleep. -/
def deliverLoop (ok : Nat → Bool) : List FileRow → Nat → List SendEvent
  | [], _ => []
  | f :: rest, i =>
    match sendOpOf f.file_type with
    | some op =>
      if ok i then
        .sent op f.file_id (f.caption.take 1024) :: .paced perSendDelay ::
          deliverLoop ok rest (i + 1)
      else
        .failLogged :: .paced failureDelay :: deliverLoop ok rest (i + 1)
    | none => .paced perSendDelay :: deliverLoop ok rest (i + 1)

/-- Result of `send_category_files`: the source replies with an error text
when the category is missing or has no files, else it announces the
category name and runs the delivery loop. -/
inductive DeliverResult where
  | nothingToDeliver
  | delivered (name : String) (events : List SendEvent)
deriving DecidableEq

/-- Models `send_category_files`. -/
def send_category_files (ok : Nat → Bool) (cid : String) (st : Store) : DeliverResult :=
  match get_category cid st with
  | none => .nothingToDeliver
  | some (name, files) =>
    if files.isEmpty then
      .nothingToDeliver
    else
      .delivered name (deliverLoop ok files 0)

/-- Whether an event is a successful send. -/
def isSentEvent : SendEvent → Bool
  | .sent _ _ _ => true
  | _ => false

/-- Successful sends of a delivery, in order. -/
def sentEvents (evs : List SendEvent) : List SendEvent := evs.filter isSentEvent

/-- Send event a file row produces when its send succeeds, if its type tag
dispatches at all. -/
def sendEventOf (f : FileRow) : Option SendEvent :=
  (sendOpOf f.file_type).map (fun op => .sent op f.file_id (f.caption.take 1024))

/-- Successful sends the delivery loop performs, computed directly from the
per-iteration success oracle. -/
def sentSpec (ok : Nat → Bool) : List FileRow → Nat → List SendEvent
  | [], _ => []
  | f :: rest, i =>
    match sendEventOf f with
    | some e => if ok i then e :: sentSpec ok rest (i + 1) else sentSpec ok rest (i + 1)
    | none => sentSpec ok rest (i + 1)

/-! ### Helper lemmas -/

theorem lookupA_setA_self {α : Type} (m : List (Int × α)) (k : Int) (v : α) :
    lookupA (setA m k v) k = some v := by
  simp [setA, lookupA]

theorem lookupA_removeA_self {α : Type} (m : List (Int × α)) (k : Int) :
    lookupA (removeA m k) k = none := by
  induction m with
  | nil => rfl
  | cons p rest ih =>
    obtain ⟨k', v⟩ := p
    by_cases h : k' = k
    · simpa [removeA, h] using ih
    · simpa [removeA, lookupA, h] using ih

/-! ### C1: membership checker retry behaviour -/

/-- C1: for every channel identifier and user identifier (hence for every
attempt oracle `tr`), `is_user_member` performs up to 3 attempts; it returns
joined as soon as one attempt reports a status in
{member, administrator, creator}; any other status or a transport-level
failure counts as a failed attempt followed by a fixed 2-unit backoff; and if
all 3 attempts fail it returns "not a member" (the total function yields
`false`, never an exception) after three backoffs. -/
theorem C1_is_user_member_retry (tr : Nat → ChatMemberResult) :
    ((∀ i, i < 3 → attemptJoined (tr i) = false) →
      is_user_member tr = (false, [2, 2, 2])) ∧
    (∀ i, i < 3 → attemptJoined (tr i) = true →
      (∀ j, j < i → attemptJoined (tr j) = false) →
      is_user_member tr = (true, List.replicate i 2)) := by
  constructor
  · intro h
    have h0 := h 0 (by omega)
    have h1 := h 1 (by omega)
    have h2 := h 2 (by omega)
    simp [is_user_member, is_user_memberAux, h0, h1, h2]
  · intro i hi hjoin hprev
    interval_cases i
    · simp [is_user_member, is_user_memberAux, hjoin]
    · have h0 := hprev 0 (by omega)
      simp [is_user_member, is_user_memberAux, h0, hjoin]
    · have h0 := hprev 0 (by omega)
      have h1 := hprev 1 (by omega)
      simp [is_user_member, is_user_memberAux, h0, h1, hjoin]

/-- Witness for C1: three consecutive transport failures yield "not a member"
with a 2-unit backoff after each failed attempt. -/
theorem C1_witness :
    is_user_member (fun _ => ChatMemberResult.failure) = (false, [2, 2, 2]) :=
  (C1_is_user_member_retry (fun _ => ChatMemberResult.failure)).1 (fun _ _ => rfl)

/-! ### C4: the gate presents exactly the unjoined subset -/

/-- C4: for every non-admin request (initial gate invocation or re-check
action), the gate computes its answer from the current channel list and
current memberships: the initial invocation and the re-check action are the
same function of that data; an empty unjoined subset proceeds to delivery;
and a prompt lists exactly the channels the user has not joined — a channel
appears iff it is a current mandatory channel the membership check rejects —
with the single re-check action bound to the same category identifier. -/
theorem C4_gate_exact_subset (st : Store) (tr : MemberOracle) (uid : Int) (cid : String) :
    handle_category false uid cid st tr = button_check uid cid st tr ∧
    (non_joinedChannels st.channels tr uid = [] →
      button_check uid cid st tr = .deliver) ∧
    (∀ nj rc, button_check uid cid st tr = .prompt nj rc →
      rc = "check_" ++ cid ∧
      ∀ c, c ∈ nj ↔ c ∈ st.channels ∧ (is_user_member (tr c.channel_id uid)).1 = false) := by
  refine ⟨?_, ?_, ?_⟩
  · by_cases hch : st.channels.isEmpty
    · have : non_joinedChannels st.channels tr uid = [] := by
        rw [List.isEmpty_iff] at hch
        simp [non_joinedChannels, hch]
      simp [handle_category, button_check, hch, this]
    · simp [handle_category, button_check, hch]
  · intro h
    simp [button_check, h]
  · intro nj rc h
    by_cases hnj : (non_joinedChannels st.channels tr uid).isEmpty
    · simp [button_check, hnj] at h
    · simp only [button_check, hnj, if_false] at h
      obtain ⟨hnj_eq, hrc⟩ := (GateAction.prompt.injEq _ _ _ _).mp h.symm
      refine ⟨hrc, ?_⟩
      intro c
      rw [hnj_eq]
      simp [non_joinedChannels, List.mem_filter]

/-- Witness for C4: one joined and one unjoined channel; the prompt holds
exactly the unjoined one, with the re-check action bound to the category. -/
theorem C4_witness :
    (∀ nj rc,
        button_check 5 "c1"
          ⟨[], [], [⟨"-100a", "A", "la"⟩, ⟨"-100b", "B", "lb"⟩]⟩
          (fun ch _ _ => if ch = "-100a" then .ok "member" else .ok "left") = .prompt nj rc →
      rc = "check_" ++ "c1" ∧
      ∀ c, c ∈ nj ↔ c ∈ (⟨[], [], [⟨"-100a", "A", "la"⟩, ⟨"-100b", "B", "lb"⟩]⟩ : Store).channels ∧
        (is_user_member ((fun ch _ _ => if ch = "-100a" then .ok "member" else .ok "left")
          c.channel_id (5 : Int))).1 = false) :=
  (C4_gate_exact_subset ⟨[], [], [⟨"-100a", "A", "la"⟩, ⟨"-100b", "B", "lb"⟩]⟩
    (fun ch _ _ => if ch = "-100a" then .ok "member" else .ok "left") 5 "c1").2.2

/-! ### C5: gating ignores category existence; "not found" happens at delivery -/

/-- C5: for every non-admin request, the gate's behaviour depends only on the
channel table and the membership oracle — two stores with the same channels
produce the same gate action, so a missing Category record changes nothing at
gate time; the gate's only outcomes are delivery or the join prompt (never a
"not found" signal); and the "not found" signal for a missing category is
produced by the delivery step. -/
theorem C5_gate_ignores_category (stA stB : Store) (tr : MemberOracle) (uid : Int)
    (cid : String) (ok : Nat → Bool) :
    (stA.channels = stB.channels →
      handle_category false uid cid stA tr = handle_category false uid cid stB tr) ∧
    (handle_category false uid cid stA tr = .deliver ∨
      handle_category false uid cid stA tr =
        .prompt (non_joinedChannels stA.channels tr uid) ("check_" ++ cid)) ∧
    (get_category cid stA = none → send_category_files ok cid stA = .nothingToDeliver) := by
  refine ⟨?_, ?_, ?_⟩
  · intro h
    simp [handle_category, h]
  · by_cases hch : stA.channels.isEmpty
    · left; simp [handle_category, hch]
    · by_cases hnj : (non_joinedChannels stA.channels tr uid).isEmpty
      · left; simp [handle_category, hch, hnj]
      · right; simp [handle_category, hch, hnj]
  · intro h
    simp [send_category_files, h]

/-- Witness for C5: a store whose category table is empty but which has one
mandatory channel the user joined — the gate still delivers, and the delivery
step reports "nothing to deliver" for the unknown category identifier. -/
theorem C5_witness :
    handle_category false 5 "ghost" ⟨[], [], [⟨"-100a", "A", "la"⟩]⟩ (fun _ _ _ => .ok "member") =
      handle_category false 5 "ghost" ⟨[⟨"c1", "n", 1⟩], [], [⟨"-100a", "A", "la"⟩]⟩
        (fun _ _ _ => .ok "member") ∧
    send_category_files (fun _ => true) "ghost" ⟨[], [], [⟨"-100a", "A", "la"⟩]⟩ =
      .nothingToDeliver :=
  ⟨(C5_gate_ignores_category ⟨[], [], [⟨"-100a", "A", "la"⟩]⟩
      ⟨[⟨"c1", "n", 1⟩], [], [⟨"-100a", "A", "la"⟩]⟩ (fun _ _ _ => .ok "member") 5 "ghost"
      (fun _ => true)).1 rfl,
   (C5_gate_ignores_category ⟨[], [], [⟨"-100a", "A", "la"⟩]⟩
      ⟨[⟨"c1", "n", 1⟩], [], [⟨"-100a", "A", "la"⟩]⟩ (fun _ _ _ => .ok "member") 5 "ghost"
      (fun _ => true)).2.2 rfl⟩

/-! ### Delivery lemmas -/

theorem take_length_le (s : String) (n : Nat) : (s.take n).length ≤ n := by
  rw [String.take_eq]
  show (s.1.take n).length ≤ n
  rw [List.length_take]
  exact Nat.min_le_left _ _

theorem sentEvents_deliverLoop (ok : Nat → Bool) :
    ∀ (files : List FileRow) (i : Nat),
      sentEvents (deliverLoop ok files i) = sentSpec ok files i := by
  intro files
  induction files with
  | nil => intro i; rfl
  | cons f rest ih =>
    intro i
    cases hop : sendOpOf f.file_type with
    | none =>
      simpa [deliverLoop, sentSpec, sendEventOf, hop, sentEvents, isSentEvent]
        using ih (i + 1)
    | some op =>
      by_cases hok : ok i
      · simpa [deliverLoop, sentSpec, sendEventOf, hop, hok, sentEvents, isSentEvent]
          using ih (i + 1)
      · simpa [deliverLoop, sentSpec, sendEventOf, hop, hok, sentEvents, isSentEvent]
          using ih (i + 1)

theorem sentSpec_all_ok (ok : Nat → Bool) (hok : ∀ i, ok i = true) :
    ∀ (files : List FileRow) (i : Nat),
      (∀ f ∈ files, (sendOpOf f.file_type).isSome) →
      sentSpec ok files i = files.map (fun f =>
        SendEvent.sent ((sendOpOf f.file_type).getD .document) f.file_id
          (f.caption.take 1024)) := by
  intro files
  induction files with
  | nil => intro i _; rfl
  | cons f rest ih =>
    intro i h
    have hf := h f (List.mem_cons_self _ _)
    obtain ⟨op, hop⟩ := Option.isSome_iff_exists.mp hf
    have hrest : ∀ g ∈ rest, (sendOpOf g.file_type).isSome :=
      fun g hg => h g (List.mem_cons_of_mem _ hg)
    simp [sentSpec, sendEventOf, hop, hok i, ih (i + 1) hrest]

theorem caption_bound_sentSpec (ok : Nat → Bool) :
    ∀ (files : List FileRow) (i : Nat) (op : SendOp) (fid cap : String),
      SendEvent.sent op fid cap ∈ sentSpec ok files i → cap.length ≤ 1024 := by
  intro files
  induction files with
  | nil => intro i op fid cap h; simp [sentSpec] at h
  | cons f rest ih =>
    intro i op fid cap h
    cases hse : sendEventOf f with
    | none =>
      simp only [sentSpec, hse] at h
      exact ih (i + 1) op fid cap h
    | some e =>
      simp only [sentSpec, hse] at h
      by_cases hok : ok i
      · rw [if_pos hok] at h
        rcases List.mem_cons.mp h with h | h
        · obtain ⟨op0, hop0, he⟩ : ∃ op0, sendOpOf f.file_type = some op0 ∧
              e = SendEvent.sent op0 f.file_id (f.caption.take 1024) := by
            cases hop : sendOpOf f.file_type with
            | none => rw [sendEventOf, hop] at hse; simp at hse
            | some op0 =>
              rw [sendEventOf, hop] at hse
              exact ⟨op0, rfl, (Option.some.inj hse).symm⟩
          rw [he] at h
          obtain ⟨-, -, hcap⟩ := SendEvent.sent.inj h
          rw [hcap]
          exact take_length_le _ _
        · exact ih (i + 1) op fid cap h
      · rw [if_neg hok] at h
        exact ih (i + 1) op fid cap h

theorem caption_bound_deliverLoop (ok : Nat → Bool) :
    ∀ (files : List FileRow) (i : Nat) (op : SendOp) (fid cap : String),
      SendEvent.sent op fid cap ∈ deliverLoop ok files i → cap.length ≤ 1024 := by
  intro files i op fid cap h
  have hmem : SendEvent.sent op fid cap ∈ sentEvents (deliverLoop ok files i) :=
    List.mem_filter.mpr ⟨h, rfl⟩
  rw [sentEvents_deliverLoop] at hmem
  exact caption_bound_sentSpec ok files i op fid cap hmem

/-! ### C6: delivery order, dispatch and caption truncation -/

/-- C6: for every existing category with at least one file, delivery announces
the category and runs the send loop; when every send succeeds and every
stored file carries one of the four recognised type tags, the successful
sends are exactly one per stored file, strictly in stored order, each
dispatched via the operation matching its type tag and each carrying the
caption truncated by `take 1024` at send time; every caption actually sent
has length at most 1024. -/
theorem C6_delivery_order (st : Store) (cid name : String) (files : List FileRow)
    (ok : Nat → Bool) :
    get_category cid st = some (name, files) → files ≠ [] →
    (∀ i, ok i = true) →
    (∀ f ∈ files, (sendOpOf f.file_type).isSome) →
    send_category_files ok cid st = .delivered name (deliverLoop ok files 0) ∧
    sentEvents (deliverLoop ok files 0) = files.map (fun f =>
      SendEvent.sent ((sendOpOf f.file_type).getD .document) f.file_id
        (f.caption.take 1024)) ∧
    (∀ op fid cap, SendEvent.sent op fid cap ∈ deliverLoop ok files 0 →
      cap.length ≤ 1024) := by
  intro hcat hne hok htags
  refine ⟨?_, ?_, ?_⟩
  · rw [send_category_files, hcat]
    simp [hne]
  · rw [sentEvents_deliverLoop, sentSpec_all_ok ok hok files 0 htags]
  · exact fun op fid cap h => caption_bound_deliverLoop ok files 0 op fid cap h

/-- Witness for C6: the spec's "Lecture1" example — a document then a photo,
delivered in stored order with matching operations and truncated captions. -/
theorem C6_witness :
    send_category_files (fun _ => true) "c1"
        ⟨[⟨"c1", "Lecture1", 1⟩],
         [⟨"c1", "docA", "a.pdf", 10, "document", "capA"⟩,
          ⟨"c1", "photoB", "b.jpg", 20, "photo", "capB"⟩], []⟩ =
      .delivered "Lecture1"
        (deliverLoop (fun _ => true)
          [⟨"c1", "docA", "a.pdf", 10, "document", "capA"⟩,
           ⟨"c1", "photoB", "b.jpg", 20, "photo", "capB"⟩] 0) ∧
    sentEvents (deliverLoop (fun _ => true)
        [⟨"c1", "docA", "a.pdf", 10, "document", "capA"⟩,
         ⟨"c1", "photoB", "b.jpg", 20, "photo", "capB"⟩] 0) =
      ([⟨"c1", "docA", "a.pdf", 10, "document", "capA"⟩,
        ⟨"c1", "photoB", "b.jpg", 20, "photo", "capB"⟩] : List FileRow).map (fun f =>
        SendEvent.sent ((sendOpOf f.file_type).getD .document) f.file_id
          (f.caption.take 1024)) ∧
    (∀ op fid cap, SendEvent.sent op fid cap ∈ deliverLoop (fun _ => true)
        [⟨"c1", "docA", "a.pdf", 10, "document", "capA"⟩,
         ⟨"c1", "photoB", "b.jpg", 20, "photo", "capB"⟩] 0 →
      cap.length ≤ 1024) :=
  C6_delivery_order
    ⟨[⟨"c1", "Lecture1", 1⟩],
     [⟨"c1", "docA", "a.pdf", 10, "document", "capA"⟩,
      ⟨"c1", "photoB", "b.jpg", 20, "photo", "capB"⟩], []⟩
    "c1" "Lecture1"
    [⟨"c1", "docA", "a.pdf", 10, "document", "capA"⟩,
     ⟨"c1", "photoB", "b.jpg", 20, "photo", "capB"⟩]
    (fun _ => true) rfl (by decide) (fun _ => rfl) (by decide)

/-! ### C7: a failed send is skipped, logged, and paced longer -/

/-- C7: for every delivery iteration whose transport send fails, the failure
is logged and the file skipped: the loop emits the failure log plus an
increased pacing delay (the per-failure delay strictly exceeds the fixed
per-send delay) and then continues with the remaining files unchanged, so
the successful sends are exactly those of the remaining delivery. -/
theorem C7_failed_send_skipped (ok : Nat → Bool) (f : FileRow) (rest : List FileRow)
    (i : Nat) (op : SendOp) :
    sendOpOf f.file_type = some op → ok i = false →
    deliverLoop ok (f :: rest) i =
      .failLogged :: .paced failureDelay :: deliverLoop ok rest (i + 1) ∧
    sentEvents (deliverLoop ok (f :: rest) i) = sentEvents (deliverLoop ok rest (i + 1)) ∧
    perSendDelay < failureDelay := by
  intro hop hok
  refine ⟨?_, ?_, by decide⟩
  · rw [deliverLoop, hop, hok]
    simp
  · rw [deliverLoop, hop, hok]
    simp [sentEvents, isSentEvent]

/-- Witness for C7: the 2nd of 3 files fails to send; the loop logs it, paces
longer, and still sends the 1st and 3rd files. -/
theorem C7_witness :
    deliverLoop (fun j => decide (j ≠ 1))
        [⟨"c1", "fB", "b.jpg", 20, "photo", "capB"⟩,
         ⟨"c1", "fC", "c.mp4", 30, "video", "capC"⟩] 1 =
      .failLogged :: .paced failureDelay ::
        deliverLoop (fun j => decide (j ≠ 1)) [⟨"c1", "fC", "c.mp4", 30, "video", "capC"⟩] 2 ∧
    sentEvents (deliverLoop (fun j => decide (j ≠ 1))
        [⟨"c1", "fB", "b.jpg", 20, "photo", "capB"⟩,
         ⟨"c1", "fC", "c.mp4", 30, "video", "capC"⟩] 1) =
      sentEvents (deliverLoop (fun j => decide (j ≠ 1))
        [⟨"c1", "fC", "c.mp4", 30, "video", "capC"⟩] 2) ∧
    perSendDelay < failureDelay :=
  C7_failed_send_skipped (fun j => decide (j ≠ 1))
    ⟨"c1", "fB", "b.jpg", 20, "photo", "capB"⟩
    [⟨"c1", "fC", "c.mp4", 30, "video", "capC"⟩] 1 .photo rfl rfl

/-! ### C10: unrecognised type tags are silently skipped -/

/-- C10: for every delivery, a stored file whose type tag has no entry in the
dispatch dict is silently skipped — the iteration emits only the ordinary
pacing sleep, no send and no failure log — and the delivery of every
remaining file proceeds unchanged. -/
theorem C10_unknown_type_skipped (ok : Nat → Bool) (f : FileRow) (rest : List FileRow)
    (i : Nat) :
    sendOpOf f.file_type = none →
    deliverLoop ok (f :: rest) i = .paced perSendDelay :: deliverLoop ok rest (i + 1) ∧
    sentEvents (deliverLoop ok (f :: rest) i) = sentEvents (deliverLoop ok rest (i + 1)) ∧
    (SendEvent.failLogged ∈ deliverLoop ok (f :: rest) i ↔
      SendEvent.failLogged ∈ deliverLoop ok rest (i + 1)) := by
  intro hop
  have hstep : deliverLoop ok (f :: rest) i =
      .paced perSendDelay :: deliverLoop ok rest (i + 1) := by
    rw [deliverLoop, hop]
  refine ⟨hstep, ?_, ?_⟩
  · rw [hstep]
    simp [sentEvents, isSentEvent]
  · rw [hstep]
    simp

/-- Witness for C10: a "sticker" file is skipped with only the ordinary
pacing sleep, and the remaining file is still delivered. -/
theorem C10_witness :
    deliverLoop (fun _ => true)
        [⟨"c1", "stk", "s.webp", 5, "sticker", ""⟩,
         ⟨"c1", "fC", "c.mp4", 30, "video", "capC"⟩] 0 =
      .paced perSendDelay ::
        deliverLoop (fun _ => true) [⟨"c1", "fC", "c.mp4", 30, "video", "capC"⟩] 1 ∧
    sentEvents (deliverLoop (fun _ => true)
        [⟨"c1", "stk", "s.webp", 5, "sticker", ""⟩,
         ⟨"c1", "fC", "c.mp4", 30, "video", "capC"⟩] 0) =
      sentEvents (deliverLoop (fun _ => true) [⟨"c1", "fC", "c.mp4", 30, "video", "capC"⟩] 1) ∧
    (SendEvent.failLogged ∈ deliverLoop (fun _ => true)
        [⟨"c1", "stk", "s.webp", 5, "sticker", ""⟩,
         ⟨"c1", "fC", "c.mp4", 30, "video", "capC"⟩] 0 ↔
      SendEvent.failLogged ∈ deliverLoop (fun _ => true)
        [⟨"c1", "fC", "c.mp4", 30, "video", "capC"⟩] 1) :=
  C10_unknown_type_skipped (fun _ => true)
    ⟨"c1", "stk", "s.webp", 5, "sticker", ""⟩
    [⟨"c1", "fC", "c.mp4", 30, "video", "capC"⟩] 0 rfl

/-! ### Batch-insert lemmas -/

theorem mem_catIds_of_get_category (cid : String) (st : Store) (info : String × List FileRow)
    (h : get_category cid st = some info) : cid ∈ catIds st := by
  rw [get_category] at h
  cases hf : st.categories.find? (fun c => c.id == cid) with
  | none => rw [hf] at h; exact absurd h (by simp)
  | some c =>
    have hc : c ∈ st.categories := List.mem_of_find?_eq_some hf
    have hid : c.id = cid := by simpa using List.find?_some hf
    show cid ∈ st.categories.map (·.id)
    exact List.mem_map.mpr ⟨c, hc, hid⟩

theorem add_filesAux_spec (cid : String) :
    ∀ (fs : List FileInfo) (st : Store) (n : Nat), cid ∈ catIds st →
      ∃ st' k, add_filesAux cid fs st n = .ok (st', n + k) ∧
        st'.categories = st.categories ∧ st'.channels = st.channels ∧
        st'.files.length = st.files.length + k ∧
        (∀ x, x ∈ fileIds st' ↔ x ∈ fileIds st ∨ x ∈ fs.map (·.file_id)) := by
  intro fs
  induction fs with
  | nil =>
    intro st n _
    exact ⟨st, 0, rfl, rfl, rfl, rfl, fun x => by simp⟩
  | cons f rest ih =>
    intro st n hc
    by_cases hdup : f.file_id ∈ fileIds st
    · obtain ⟨st', k, heq, hcat, hchan, hlen, hids⟩ := ih st n hc
      refine ⟨st', k, ?_, hcat, hchan, hlen, ?_⟩
      · rw [add_filesAux, if_pos hc, if_pos hdup]
        exact heq
      · intro x
        rw [hids x]
        simp only [List.map_cons, List.mem_cons]
        constructor
        · rintro (hx | hx)
          · exact Or.inl hx
          · exact Or.inr (Or.inr hx)
        · rintro (hx | hx | hx)
          · exact Or.inl hx
          · exact Or.inl (hx ▸ hdup)
          · exact Or.inr hx
    · have hc₂ : cid ∈ catIds { st with files := st.files ++ [mkFileRow cid f] } := hc
      obtain ⟨st', k, heq, hcat, hchan, hlen, hids⟩ :=
        ih { st with files := st.files ++ [mkFileRow cid f] } (n + 1) hc₂
      refine ⟨st', k + 1, ?_, hcat, hchan, ?_, ?_⟩
      · rw [add_filesAux, if_pos hc, if_neg hdup, heq]
        congr 2
        omega
      · simp only [List.length_append, List.length_cons, List.length_nil] at hlen
        omega
      · intro x
        rw [hids x]
        simp only [fileIds, List.map_append, List.map_cons, List.map_nil, List.mem_append,
          List.mem_cons, List.mem_singleton, List.not_mem_nil, or_false]
        constructor
        · rintro ((hx | hx) | hx)
          · exact Or.inl hx
          · exact Or.inr (Or.inl hx)
          · exact Or.inr (Or.inr hx)
        · rintro (hx | hx | hx)
          · exact Or.inl (Or.inl hx)
          · exact Or.inl (Or.inr hx)
          · exact Or.inr hx

theorem lookupA_runAddFiles (uid : Int) :
    ∀ (fs : List FileInfo) (pending : List (Int × UploadSession)) (cid : String)
      (acc : List FileInfo),
      lookupA pending uid = some ⟨cid, acc⟩ →
      lookupA (runAddFiles uid fs pending) uid = some ⟨cid, acc ++ fs⟩ := by
  intro fs
  induction fs with
  | nil => intro pending cid acc h; simpa [runAddFiles] using h
  | cons fi rest ih =>
    intro pending cid acc h
    have hstep : (handle_file uid (some fi) pending).2 =
        setA pending uid ⟨cid, acc ++ [fi]⟩ := by
      simp [handle_file, h]
    have hrw : runAddFiles uid (fi :: rest) pending =
        runAddFiles uid rest (setA pending uid ⟨cid, acc ++ [fi]⟩) := by
      simp [runAddFiles, hstep]
    rw [hrw]
    have := ih (setA pending uid ⟨cid, acc ++ [fi]⟩) cid (acc ++ [fi]) (lookupA_setA_self _ _ _)
    simpa using this

/-! ### C2: finalize persists the batch, reports the count, removes the session -/

/-- C2 (amended): for every upload session started by a successful `begin`
(the category exists) and every non-empty sequence of `addFile` calls,
finalize persists the accumulated list in one batch, skipping each entry
whose file identifier already exists in the store at its turn, reports
exactly the count of rows actually inserted, and removes the session; the
file-id set afterwards is the union of the old one and the batch's ids, and
the session is removed whenever finalize finds one, regardless of the
outcome of persistence.  (With an empty accumulated list the source reports
"no files received" instead of a count, and a missing category makes the
uncaught insert error propagate — see the counterexample.) -/
theorem C2_finalize_batch (uid : Int) (pending : List (Int × UploadSession)) (st : Store)
    (cid : String) (info : String × List FileRow) (fs : List FileInfo) :
    get_category cid st = some info → fs ≠ [] →
    ∃ st' n,
      add_files cid fs st = .ok (st', n) ∧
      upload_command true [cid] st pending uid = (.activated, setA pending uid ⟨cid, []⟩) ∧
      finish_upload uid (runAddFiles uid fs (setA pending uid ⟨cid, []⟩)) st =
        (.saved n, removeA (runAddFiles uid fs (setA pending uid ⟨cid, []⟩)) uid, st') ∧
      lookupA (removeA (runAddFiles uid fs (setA pending uid ⟨cid, []⟩)) uid) uid = none ∧
      st'.files.length = st.files.length + n ∧
      (∀ x, x ∈ fileIds st' ↔ x ∈ fileIds st ∨ x ∈ fs.map (·.file_id)) ∧
      (∀ (pending0 : List (Int × UploadSession)) (st0 : Store) (sess0 : UploadSession),
        lookupA pending0 uid = some sess0 →
        lookupA (finish_upload uid pending0 st0).2.1 uid = none) := by
  intro hcat hne
  have hc : cid ∈ catIds st := mem_catIds_of_get_category cid st info hcat
  obtain ⟨st', k, heq, -, -, hlen, hids⟩ := add_filesAux_spec cid fs st 0 hc
  have heq' : add_files cid fs st = .ok (st', k) := by
    rw [add_files, heq, Nat.zero_add]
  have hlk : lookupA (runAddFiles uid fs (setA pending uid ⟨cid, []⟩)) uid =
      some ⟨cid, fs⟩ := by
    simpa using lookupA_runAddFiles uid fs (setA pending uid ⟨cid, []⟩) cid []
      (lookupA_setA_self _ _ _)
  have hfsE : fs.isEmpty = false := by simpa [List.isEmpty_iff] using hne
  refine ⟨st', k, heq', ?_, ?_, lookupA_removeA_self _ _, hlen, hids, ?_⟩
  · simp [upload_command, hcat]
  · simp [finish_upload, hlk, hfsE, heq']
  · intro pending0 st0 sess0 h0
    by_cases hE : sess0.files.isEmpty
    · simp [finish_upload, h0, hE, lookupA_removeA_self]
    · cases hadd : add_files sess0.category_id sess0.files st0 with
      | ok p => simp [finish_upload, h0, hE, hadd, lookupA_removeA_self]
      | error e => simp [finish_upload, h0, hE, hadd, lookupA_removeA_self]

/-- Counterexample for C2 as stated: a session finalized with an empty
accumulated list reports "no files received", not the inserted count 0; and
a session whose target category is missing from the store makes finalize
propagate the uncaught insert error instead of reporting a count.  The
session is removed in both runs. -/
theorem C2_counterexample :
    finish_upload 7 [(7, ⟨"c1", []⟩)] ⟨[⟨"c1", "n", 1⟩], [], []⟩ =
      (.noFiles, [], ⟨[⟨"c1", "n", 1⟩], [], []⟩) ∧
    FinishOutcome.noFiles ≠ FinishOutcome.saved 0 ∧
    finish_upload 8 [(8, ⟨"ghost", [⟨"fX", "x", 1, "document", ""⟩]⟩)]
        ⟨[⟨"c1", "n", 1⟩], [], []⟩ =
      (.raised, [], ⟨[⟨"c1", "n", 1⟩], [], []⟩) := by
  refine ⟨rfl, by decide, rfl⟩

/-- Witness for C2: beginning an upload into the existing category `c1`,
adding one fresh file and one whose id `dup` is already stored, then
finalizing: the duplicate is skipped, the count is the number actually
inserted, and the session is gone. -/
theorem C2_witness :
    ∃ st' n,
      add_files "c1" [⟨"fN", "new", 2, "photo", "c"⟩, ⟨"dup", "d2", 3, "video", ""⟩]
          ⟨[⟨"c1", "n", 1⟩], [⟨"c1", "dup", "d", 1, "document", ""⟩], []⟩ = .ok (st', n) ∧
      upload_command true ["c1"] ⟨[⟨"c1", "n", 1⟩], [⟨"c1", "dup", "d", 1, "document", ""⟩], []⟩
          [] 1 = (.activated, setA [] 1 ⟨"c1", []⟩) ∧
      finish_upload 1
          (runAddFiles 1 [⟨"fN", "new", 2, "photo", "c"⟩, ⟨"dup", "d2", 3, "video", ""⟩]
            (setA [] 1 ⟨"c1", []⟩))
          ⟨[⟨"c1", "n", 1⟩], [⟨"c1", "dup", "d", 1, "document", ""⟩], []⟩ =
        (.saved n,
         removeA (runAddFiles 1 [⟨"fN", "new", 2, "photo", "c"⟩, ⟨"dup", "d2", 3, "video", ""⟩]
           (setA [] 1 ⟨"c1", []⟩)) 1, st') ∧
      lookupA (removeA (runAddFiles 1
          [⟨"fN", "new", 2, "photo", "c"⟩, ⟨"dup", "d2", 3, "video", ""⟩]
          (setA [] 1 ⟨"c1", []⟩)) 1) 1 = none ∧
      st'.files.length =
        (⟨[⟨"c1", "n", 1⟩], [⟨"c1", "dup", "d", 1, "document", ""⟩], []⟩ : Store).files.length
          + n ∧
      (∀ x, x ∈ fileIds st' ↔
        x ∈ fileIds ⟨[⟨"c1", "n", 1⟩], [⟨"c1", "dup", "d", 1, "document", ""⟩], []⟩ ∨
        x ∈ ([⟨"fN", "new", 2, "photo", "c"⟩,
              ⟨"dup", "d2", 3, "video", ""⟩] : List FileInfo).map (·.file_id)) ∧
      (∀ (pending0 : List (Int × UploadSession)) (st0 : Store) (sess0 : UploadSession),
        lookupA pending0 1 = some sess0 →
        lookupA (finish_upload 1 pending0 st0).2.1 1 = none) :=
  C2_finalize_batch 1 [] ⟨[⟨"c1", "n", 1⟩], [⟨"c1", "dup", "d", 1, "document", ""⟩], []⟩
    "c1" ("n", [⟨"c1", "dup", "d", 1, "document", ""⟩])
    [⟨"fN", "new", 2, "photo", "c"⟩, ⟨"dup", "d2", 3, "video", ""⟩] rfl (by decide)

/-! ### C3: begin and category existence -/

/-- C3 (amended): begin via the `/upload` command requires the category to
exist — with an unknown category identifier it replies "not found" and
creates no session, and with an existing one it overwrites any session for
that admin with an empty file list; begin via the add-file button, however,
assigns the session unconditionally, without checking that the category
exists. -/
theorem C3_begin_category_check (st : Store) (pending : List (Int × UploadSession))
    (uid : Int) (cid : String) (rest : List String) :
    (get_category cid st = none →
      upload_command true (cid :: rest) st pending uid = (.notFound, pending)) ∧
    (∀ info, get_category cid st = some info →
      upload_command true (cid :: rest) st pending uid =
        (.activated, setA pending uid ⟨cid, []⟩)) ∧
    button_add true cid pending uid = (.activated, setA pending uid ⟨cid, []⟩) ∧
    lookupA (setA pending uid (⟨cid, []⟩ : UploadSession)) uid = some ⟨cid, []⟩ := by
  refine ⟨?_, ?_, rfl, lookupA_setA_self _ _ _⟩
  · intro h
    simp [upload_command, h]
  · intro info h
    simp [upload_command, h]

/-- Counterexample for C3 as stated: the add-file button creates an upload
session for the admin even though no Category record with id `zzz` exists. -/
theorem C3_counterexample :
    get_category "zzz" ⟨[], [], []⟩ = none ∧
    (button_add true "zzz" [] 1).2 = [(1, ⟨"zzz", []⟩)] ∧
    lookupA (button_add true "zzz" [] 1).2 1 = some ⟨"zzz", []⟩ := by
  refine ⟨rfl, rfl, rfl⟩

/-- Witness for C3: the command path refuses an unknown category and
overwrites an existing session with an empty list for a known one. -/
theorem C3_witness :
    upload_command true ["zz"] ⟨[⟨"c1", "n", 1⟩], [], []⟩ [(5, ⟨"c0", []⟩)] 5 =
      (.notFound, [(5, ⟨"c0", []⟩)]) ∧
    upload_command true ["c1"] ⟨[⟨"c1", "n", 1⟩], [], []⟩ [(5, ⟨"c0", []⟩)] 5 =
      (.activated, setA [(5, ⟨"c0", []⟩)] 5 ⟨"c1", []⟩) :=
  ⟨(C3_begin_category_check ⟨[⟨"c1", "n", 1⟩], [], []⟩ [(5, ⟨"c0", []⟩)] 5 "zz" []).1 rfl,
   (C3_begin_category_check ⟨[⟨"c1", "n", 1⟩], [], []⟩ [(5, ⟨"c0", []⟩)] 5 "c1" []).2.1
     ("n", []) rfl⟩

/-! ### C8: channel registration wizard -/

/-- C8: starting from a freshly opened registration session, the wizard
advances one field per inbound text message in the fixed order
id → name → link, persisting nothing during the first two messages (the
store component stays unchanged); on the third message it calls the store's
channel insert exactly once, reports a duplicate channel identifier as the
distinguishable "already exists" failure with no store mutation, reports
success with the new row appended otherwise, and clears the session in both
cases. -/
theorem C8_wizard_three_steps (uid : Int) (pendingC : List (Int × ChanState)) (st : Store)
    (t1 t2 t3 : String) :
    lookupA pendingC uid = some .empty →
    handle_channel_info t1 uid pendingC st =
      (.gotId, setA pendingC uid (.haveId (pyStrip t1)), st) ∧
    handle_channel_info t2 uid (setA pendingC uid (.haveId (pyStrip t1))) st =
      (.gotName,
       setA (setA pendingC uid (.haveId (pyStrip t1))) uid
         (.haveIdName (pyStrip t1) (pyStrip t2)), st) ∧
    lookupA (handle_channel_info t3 uid
      (setA (setA pendingC uid (.haveId (pyStrip t1))) uid
        (.haveIdName (pyStrip t1) (pyStrip t2))) st).2.1 uid = none ∧
    (pyStrip t1 ∈ chanIds st →
      handle_channel_info t3 uid
        (setA (setA pendingC uid (.haveId (pyStrip t1))) uid
          (.haveIdName (pyStrip t1) (pyStrip t2))) st =
      (.addFailed,
       removeA (setA (setA pendingC uid (.haveId (pyStrip t1))) uid
         (.haveIdName (pyStrip t1) (pyStrip t2))) uid, st)) ∧
    (pyStrip t1 ∉ chanIds st →
      handle_channel_info t3 uid
        (setA (setA pendingC uid (.haveId (pyStrip t1))) uid
          (.haveIdName (pyStrip t1) (pyStrip t2))) st =
      (.added,
       removeA (setA (setA pendingC uid (.haveId (pyStrip t1))) uid
         (.haveIdName (pyStrip t1) (pyStrip t2))) uid,
       { st with channels := st.channels ++ [⟨pyStrip t1, pyStrip t2, pyStrip t3⟩] })) := by
  intro h
  refine ⟨?_, ?_, ?_, ?_, ?_⟩
  · simp [handle_channel_info, h]
  · simp [handle_channel_info, lookupA_setA_self]
  · by_cases hd : pyStrip t1 ∈ chanIds st
    · simp [handle_channel_info, lookupA_setA_self, add_channel, hd, lookupA_removeA_self]
    · simp [handle_channel_info, lookupA_setA_self, add_channel, hd, lookupA_removeA_self]
  · intro hd
    simp [handle_channel_info, lookupA_setA_self, add_channel, hd]
  · intro hd
    simp [handle_channel_info, lookupA_setA_self, add_channel, hd]

/-- Witness for C8: a complete id → name → link run against an empty store
persists the stripped channel data once and clears the session. -/
theorem C8_witness :
    handle_channel_info " -100x " 1 [(1, .empty)] ⟨[], [], []⟩ =
      (.gotId, setA [(1, .empty)] 1 (.haveId (pyStrip " -100x ")), ⟨[], [], []⟩) ∧
    handle_channel_info "MyChan" 1 (setA [(1, .empty)] 1 (.haveId (pyStrip " -100x ")))
        ⟨[], [], []⟩ =
      (.gotName,
       setA (setA [(1, .empty)] 1 (.haveId (pyStrip " -100x "))) 1
         (.haveIdName (pyStrip " -100x ") (pyStrip "MyChan")), ⟨[], [], []⟩) ∧
    lookupA (handle_channel_info "https://t.me/x" 1
      (setA (setA [(1, .empty)] 1 (.haveId (pyStrip " -100x "))) 1
        (.haveIdName (pyStrip " -100x ") (pyStrip "MyChan"))) ⟨[], [], []⟩).2.1 1 = none ∧
    (pyStrip " -100x " ∈ chanIds ⟨[], [], []⟩ →
      handle_channel_info "https://t.me/x" 1
        (setA (setA [(1, .empty)] 1 (.haveId (pyStrip " -100x "))) 1
          (.haveIdName (pyStrip " -100x ") (pyStrip "MyChan"))) ⟨[], [], []⟩ =
      (.addFailed,
       removeA (setA (setA [(1, .empty)] 1 (.haveId (pyStrip " -100x "))) 1
         (.haveIdName (pyStrip " -100x ") (pyStrip "MyChan"))) 1, ⟨[], [], []⟩)) ∧
    (pyStrip " -100x " ∉ chanIds ⟨[], [], []⟩ →
      handle_channel_info "https://t.me/x" 1
        (setA (setA [(1, .empty)] 1 (.haveId (pyStrip " -100x "))) 1
          (.haveIdName (pyStrip " -100x ") (pyStrip "MyChan"))) ⟨[], [], []⟩ =
      (.added,
       removeA (setA (setA [(1, .empty)] 1 (.haveId (pyStrip " -100x "))) 1
         (.haveIdName (pyStrip " -100x ") (pyStrip "MyChan"))) 1,
       { (⟨[], [], []⟩ : Store) with channels :=
          (⟨[], [], []⟩ : Store).channels ++
            [⟨pyStrip " -100x ", pyStrip "MyChan", pyStrip "https://t.me/x"⟩] })) :=
  C8_wizard_three_steps 1 [(1, .empty)] ⟨[], [], []⟩ " -100x " "MyChan" "https://t.me/x" rfl

/-! ### C9: duplicate category name -/

/-- C9 (amended): a create-category invocation whose name duplicates an
existing category's name inserts nothing, but the uniqueness conflict is not
reported distinctly inside the handler — the insert error propagates out of
the handler uncaught (the source's `add_category`, unlike `add_file` and
`add_channel`, has no `except UniqueViolationError` clause); with a fresh
name and fresh id the category is inserted and announced. -/
theorem C9_duplicate_category_name (args : List String) (freshId : String) (uid : Int)
    (st : Store) :
    (args ≠ [] → String.intercalate " " args ∈ catNames st →
      new_category true args freshId uid st = (.raised, st)) ∧
    (args ≠ [] → freshId ∉ catIds st → String.intercalate " " args ∉ catNames st →
      new_category true args freshId uid st =
        (.created freshId,
         { st with categories :=
            st.categories ++ [⟨freshId, String.intercalate " " args, uid⟩] })) := by
  constructor
  · intro hne hdup
    have hargs : args.isEmpty = false := by simpa [List.isEmpty_iff] using hne
    simp [new_category, hargs, add_category, hdup]
  · intro hne hid hname
    have hargs : args.isEmpty = false := by simpa [List.isEmpty_iff] using hne
    simp [new_category, hargs, add_category, hid, hname]

/-- Counterexample for C9 as stated: creating a category named `n` while a
category named `n` exists makes the handler end in the uncaught-exception
outcome — there is no distinct in-handler "already exists" report — though
no category is inserted (the store is unchanged). -/
theorem C9_counterexample :
    new_category true ["n"] "bbbb2222" 2 ⟨[⟨"aaaa1111", "n", 1⟩], [], []⟩ =
      (.raised, ⟨[⟨"aaaa1111", "n", 1⟩], [], []⟩) := by
  decide

/-- Witness for C9: the amended behaviour at concrete inputs — a duplicate
name raises with the store unchanged, a fresh name inserts. -/
theorem C9_witness :
    new_category true ["n"] "cccc3333" 3 ⟨[⟨"aaaa1111", "n", 1⟩], [], []⟩ =
      (.raised, ⟨[⟨"aaaa1111", "n", 1⟩], [], []⟩) ∧
    new_category true ["m"] "cccc3333" 3 ⟨[⟨"aaaa1111", "n", 1⟩], [], []⟩ =
      (.created "cccc3333",
       { (⟨[⟨"aaaa1111", "n", 1⟩], [], []⟩ : Store) with categories :=
          (⟨[⟨"aaaa1111", "n", 1⟩], [], []⟩ : Store).categories ++
            [⟨"cccc3333", String.intercalate " " ["m"], 3⟩] }) :=
  ⟨(C9_duplicate_category_name ["n"] "cccc3333" 3 ⟨[⟨"aaaa1111", "n", 1⟩], [], []⟩).1
     (by decide) (by decide),
   (C9_duplicate_category_name ["m"] "cccc3333" 3 ⟨[⟨"aaaa1111", "n", 1⟩], [], []⟩).2
     (by decide) (by decide) (by decide)⟩

end UploaderBot
